import Mathlib

/-!
Shallow embedding of the content-addressed storage and analytics subsystem of
the `contentgen` repository (src/storage/distributed_storage.py and
src/storage/content_manager.py), together with proofs about the claims of its
specification.

Python dictionaries that are used as string-keyed maps are embedded as
association lists (first-occurrence lookup, in-place overwrite on update),
Python strings as Lean `String`, Python ints as `Int` (Python ints are
unbounded, so no wrap-around modelling is needed), and the filesystem that
backs `DistributedStorage` as two association lists keyed by the path of the
artifact (content `.txt` files and `_meta.json` files).  Operations that can
raise in Python return `Except PyErr` values, paired with the post-state.
-/

/-- First-value lookup in an association list, `none` when the key is absent.
Models `key in dict` / `dict[key]` on Python dicts. -/
def pyFind? {κ α : Type} [DecidableEq κ] : List (κ × α) → κ → Option α
  | [], _ => none
  | (k', v) :: rest, k => if k' = k then some v else pyFind? rest k

/-- Lookup with a default value.  Models Python's `dict.get(key, default)`. -/
def pyGet {κ α : Type} [DecidableEq κ] : List (κ × α) → κ → α → α
  | [], _, d => d
  | (k', v) :: rest, k, d => if k' = k then v else pyGet rest k d

/-- Insert-or-overwrite.  Models Python's `dict[key] = value`. -/
def pySet {κ α : Type} [DecidableEq κ] : List (κ × α) → κ → α → List (κ × α)
  | [], k, v => [(k, v)]
  | (k', v') :: rest, k, v =>
    if k' = k then (k, v) :: rest else (k', v') :: pySet rest k v

/-- Sum of the values of a string-keyed counter dict.
Models Python's `sum(d.values())`. -/
def sumValues : List (String × Int) → Int
  | [] => 0
  | (_, v) :: rest => v + sumValues rest

/- ### MD5 (hashlib.md5(content.encode()).hexdigest())

`DistributedStorage._get_content_hash` calls Python's `hashlib.md5` on the
UTF-8 encoding of the content and takes the lowercase hex digest.  The MD5
algorithm (RFC 1321) is embedded below over `Nat`, with 32-bit words kept
reduced modulo 2^32. -/

/-- Reduce to a 32-bit word. -/
def u32 (n : Nat) : Nat := n % 4294967296

/-- Left-rotate a 32-bit word by `s` bits (for `x < 2^32`, `s ≤ 32`). -/
def rotl (x s : Nat) : Nat := (x * 2 ^ s) % 4294967296 + x / 2 ^ (32 - s)

/-- MD5 round function F (rounds 0–15). -/
def mdF (b c d : Nat) : Nat := Nat.lor (Nat.land b c) (Nat.land (4294967295 - b) d)

/-- MD5 round function G (rounds 16–31). -/
def mdG (b c d : Nat) : Nat := Nat.lor (Nat.land d b) (Nat.land (4294967295 - d) c)

/-- MD5 round function H (rounds 32–47). -/
def mdH (b c d : Nat) : Nat := Nat.xor b (Nat.xor c d)

/-- MD5 round function I (rounds 48–63). -/
def mdI (b c d : Nat) : Nat := Nat.xor c (Nat.lor b (4294967295 - d))

/-- The 64 MD5 sine-derived constants `K[i] = floor(2^32 * |sin(i+1)|)`. -/
def md5K : List Nat :=
  [0xd76aa478, 0xe8c7b756, 0x242070db, 0xc1bdceee,
   0xf57c0faf, 0x4787c62a, 0xa8304613, 0xfd469501,
   0x698098d8, 0x8b44f7af, 0xffff5bb1, 0x895cd7be,
   0x6b901122, 0xfd987193, 0xa679438e, 0x49b40821,
   0xf61e2562, 0xc040b340, 0x265e5a51, 0xe9b6c7aa,
   0xd62f105d, 0x02441453, 0xd8a1e681, 0xe7d3fbc8,
   0x21e1cde6, 0xc33707d6, 0xf4d50d87, 0x455a14ed,
   0xa9e3e905, 0xfcefa3f8, 0x676f02d9, 0x8d2a4c8a,
   0xfffa3942, 0x8771f681, 0x6d9d6122, 0xfde5380c,
   0xa4beea44, 0x4bdecfa9, 0xf6bb4b60, 0xbebfbc70,
   0x289b7ec6, 0xeaa127fa, 0xd4ef3085, 0x04881d05,
   0xd9d4d039, 0xe6db99e5, 0x1fa27cf8, 0xc4ac5665,
   0xf4292244, 0x432aff97, 0xab9423a7, 0xfc93a039,
   0x655b59c3, 0x8f0ccc92, 0xffeff47d, 0x85845dd1,
   0x6fa87e4f, 0xfe2ce6e0, 0xa3014314, 0x4e0811a1,
   0xf7537e82, 0xbd3af235, 0x2ad7d2bb, 0xeb86d391]

/-- The 64 MD5 per-round left-rotation amounts. -/
def md5S : List Nat :=
  [7, 12, 17, 22, 7, 12, 17, 22, 7, 12, 17, 22, 7, 12, 17, 22,
   5, 9, 14, 20, 5, 9, 14, 20, 5, 9, 14, 20, 5, 9, 14, 20,
   4, 11, 16, 23, 4, 11, 16, 23, 4, 11, 16, 23, 4, 11, 16, 23,
   6, 10, 15, 21, 6, 10, 15, 21, 6, 10, 15, 21, 6, 10, 15, 21]

/-- One MD5 round: round index `i`, message words `m`, state `(a, b, c, d)`. -/
def md5Round (m : List Nat) (st : Nat × Nat × Nat × Nat) (i : Nat) :
    Nat × Nat × Nat × Nat :=
  let (a, b, c, d) := st
  let f :=
    if i < 16 then mdF b c d
    else if i < 32 then mdG b c d
    else if i < 48 then mdH b c d
    else mdI b c d
  let g :=
    if i < 16 then i
    else if i < 32 then (5 * i + 1) % 16
    else if i < 48 then (3 * i + 5) % 16
    else (7 * i) % 16
  let tmp := u32 (a + f + md5K.getD i 0 + m.getD g 0)
  (d, u32 (b + rotl tmp (md5S.getD i 0)), b, c)

/-- Split a 64-byte chunk into 16 little-endian 32-bit words. -/
def leWords : List Nat → List Nat
  | b0 :: b1 :: b2 :: b3 :: rest =>
    (b0 + 256 * b1 + 65536 * b2 + 16777216 * b3) :: leWords rest
  | _ => []

/-- Process one 64-byte chunk of the padded message. -/
def md5Chunk (st : Nat × Nat × Nat × Nat) (chunk : List Nat) :
    Nat × Nat × Nat × Nat :=
  let m := leWords chunk
  let r := (List.range 64).foldl (md5Round m) st
  (u32 (st.1 + r.1), u32 (st.2.1 + r.2.1), u32 (st.2.2.1 + r.2.2.1),
   u32 (st.2.2.2 + r.2.2.2))

/-- `count` little-endian bytes of `n`. -/
def leBytes : Nat → Nat → List Nat
  | 0, _ => []
  | k + 1, n => n % 256 :: leBytes k (n / 256)

/-- MD5 padding: a 0x80 byte, zeros to 56 mod 64, then the bit length as a
64-bit little-endian quantity. -/
def md5Pad (msg : List Nat) : List Nat :=
  msg ++ [128] ++ List.replicate ((119 - msg.length % 64) % 64) 0
      ++ leBytes 8 ((msg.length * 8) % 18446744073709551616)

/-- Split a byte list into 64-byte chunks (structural recursion on a fuel
bound: each chunk consumes at least one byte, so `l.length` chunks suffice). -/
def chunksAux : Nat → List Nat → List (List Nat)
  | 0, _ => []
  | _ + 1, [] => []
  | fuel + 1, x :: xs => ((x :: xs).take 64) :: chunksAux fuel ((x :: xs).drop 64)

/-- Split a byte list into 64-byte chunks. -/
def chunks64 (l : List Nat) : List (List Nat) := chunksAux l.length l

/-- UTF-8 encoding of one character, as bytes.  Models `str.encode()`. -/
def utf8Char (c : Char) : List Nat :=
  let n := c.toNat
  if n < 128 then [n]
  else if n < 2048 then [192 + n / 64, 128 + n % 64]
  else if n < 65536 then [224 + n / 4096, 128 + n / 64 % 64, 128 + n % 64]
  else [240 + n / 262144, 128 + n / 4096 % 64, 128 + n / 64 % 64, 128 + n % 64]

/-- UTF-8 encoding of a string, as bytes. -/
def utf8Encode (s : String) : List Nat :=
  s.data.foldr (fun c acc => utf8Char c ++ acc) []

/-- Lowercase hex digit. -/
def hexChar (n : Nat) : Char :=
  if n < 10 then Char.ofNat (48 + n) else Char.ofNat (87 + n)

/-- Two lowercase hex digits of a byte. -/
def byteHex (b : Nat) : List Char := [hexChar (b / 16), hexChar (b % 16)]

/-- `DistributedStorage._get_content_hash`:
`hashlib.md5(content.encode()).hexdigest()` — the 32-character lowercase hex
MD5 digest of the UTF-8 encoded content. -/
def md5Hex (content : String) : String :=
  let msg := md5Pad (utf8Encode content)
  let r := (chunks64 msg).foldl md5Chunk
    (1732584193, 4023233417, 2562383102, 271733878)
  ⟨(leBytes 4 r.1 ++ leBytes 4 r.2.1 ++ leBytes 4 r.2.2.1
      ++ leBytes 4 r.2.2.2).foldr (fun b acc => byteHex b ++ acc) []⟩

/- ### Data model -/

/-- Python exception kinds raised by the embedded code: `OSError` from
filesystem I/O, `ValueError` from `datetime.fromisoformat`, and
`AttributeError` from accessing an attribute that was never defined. -/
inductive PyErr : Type
  | ioError
  | valueError
  | attributeError
  deriving DecidableEq, Repr

/-- The metadata dictionary passed to `store_content` and consumed by
`_update_analytics` and `search_content`.  The keys the storage layer reads or
writes are explicit `Option` fields (`none` models an absent key); every other
key the caller may have put in the dict is carried opaquely in `extra`. -/
structure Metadata : Type where
  tone : Option String := none
  target_length : Option Int := none
  actual_length : Option Int := none
  model_used : Option String := none
  input_type : Option String := none
  created_at : Option String := none
  content_hash : Option String := none
  extra : List (String × String) := []
  deriving DecidableEq, Repr

/-- The analytics aggregate persisted in `analytics.json`. -/
structure Analytics : Type where
  total_content_generated : Int
  tone_distribution : List (String × Int)
  length_distribution : List (String × Int)
  daily_stats : List (String × Int)
  model_usage : List (String × Int)
  deriving DecidableEq, Repr

/-- The filesystem under one storage root: the content artifacts and metadata
artifacts written by `DistributedStorage` (keyed by their path below the root,
as a list of path segments) and the single `analytics.json` aggregate. -/
structure StorageState : Type where
  files_txt : List (List String × String)
  files_meta : List (List String × Metadata)
  analytics : Analytics
  deriving DecidableEq, Repr

/-- Ambient environment of one call: the wall-clock readings
(`datetime.utcnow().isoformat()` and its `%Y-%m-%d` rendering), the ordinal of
`datetime.utcnow() - timedelta(days=d)` used by `cleanup_old_content` (under
the same ordinal encoding as `parseDT`), and fault switches modelling whether
the filesystem raises `OSError` on the content-store artifacts or on the
analytics file during this call. -/
structure Env : Type where
  nowIso : String
  today : String
  cutoffOf : Int → Nat
  storeFault : Bool
  analyticsFault : Bool

/-- A fault-free environment. -/
def envOk (nowIso today : String) : Env :=
  ⟨nowIso, today, fun _ => 0, false, false⟩

/- ### DistributedStorage -/

/-- Python string slicing `s[a:b]` (for `a ≤ b`). -/
def pySlice (s : String) (a b : Nat) : String := ⟨(s.data.take b).drop a⟩

/-- `DistributedStorage._get_storage_path`: the shard directory
`base / hash[:2] / hash[2:4]`, as path segments below the storage root. -/
def get_storage_path (content_hash : String) : List String :=
  [pySlice content_hash 0 2, pySlice content_hash 2 4]

/-- Path of the content artifact `storage_path / f"{content_hash}.txt"`. -/
def contentPath (content_hash : String) : List String :=
  get_storage_path content_hash ++ [content_hash ++ ".txt"]

/-- Path of the metadata artifact `storage_path / f"{content_hash}_meta.json"`. -/
def metaPath (content_hash : String) : List String :=
  get_storage_path content_hash ++ [content_hash ++ "_meta.json"]

/-- The stamping `metadata['created_at'] = datetime.utcnow().isoformat();
metadata['content_hash'] = content_hash` performed inside `store_content`
(overwriting those keys if the caller had set them). -/
def stampMeta (m : Metadata) (nowIso content_hash : String) : Metadata :=
  { m with created_at := some nowIso, content_hash := some content_hash }

/-- `DistributedStorage.store_content`: computes the content hash, writes the
content artifact and the stamped metadata artifact under the shard path, and
returns the hash.  The Python method mutates the caller's metadata dict in
place when stamping; the mutation is modelled by returning the stamped
metadata alongside the hash.  `env.storeFault = true` models the filesystem
raising `OSError` on this call. -/
def store_content (env : Env) (content : String) (m : Metadata)
    (st : StorageState) : Except PyErr (String × Metadata) × StorageState :=
  if env.storeFault then (Except.error PyErr.ioError, st)
  else
    let h := md5Hex content
    let m' := stampMeta m env.nowIso h
    (Except.ok (h, m'),
     { st with
        files_txt := pySet st.files_txt (contentPath h) content,
        files_meta := pySet st.files_meta (metaPath h) m' })

/-- `DistributedStorage.retrieve_content`: recomputes the shard path and
returns `none` unless both the content artifact and the metadata artifact
exist; otherwise the stored pair. -/
def retrieve_content (content_hash : String) (st : StorageState) :
    Option (String × Metadata) :=
  match pyFind? st.files_txt (contentPath content_hash),
        pyFind? st.files_meta (metaPath content_hash) with
  | some c, some m => some (c, m)
  | _, _ => none

/-- `DistributedStorage.list_contents`: walks the two-level shard tree and
collects every stored metadata record.  Every metadata artifact written by
`store_content` sits under two lowercase-hex shard directories and ends in
`_meta.json`, so it matches the globs; in the typed embedding no artifact is
malformed, so the `except: continue` branch is dead. -/
def list_contents (st : StorageState) : List Metadata :=
  st.files_meta.map Prod.snd

/- ### ContentManager -/

/-- The zero aggregate written by `ContentManager._ensure_analytics_file`. -/
def freshAnalytics : Analytics := ⟨0, [], [], [], []⟩

/-- A fresh storage root right after `ContentManager.__init__`. -/
def freshState : StorageState := ⟨[], [], freshAnalytics⟩

/-- The length bucket label
`f"{(length // 100) * 100}-{(length // 100) * 100 + 99}"`
(Python `//` is floor division, `Int.fdiv` here). -/
def lengthRange (length : Int) : String :=
  toString (Int.fdiv length 100 * 100) ++ "-"
    ++ toString (Int.fdiv length 100 * 100 + 99)

/-- One counter increment `d[k] = d.get(k, 0) + 1`. -/
def bumpKey (l : List (String × Int)) (k : String) : List (String × Int) :=
  pySet l k (pyGet l k 0 + 1)

/-- The in-memory update performed by `ContentManager._update_analytics`
between reading and writing `analytics.json`: increment the total and one key
of each of the four distributions. -/
def updateAnalyticsPure (today : String) (m : Metadata) (a : Analytics) :
    Analytics :=
  { total_content_generated := a.total_content_generated + 1
    tone_distribution := bumpKey a.tone_distribution (m.tone.getD "unknown")
    length_distribution :=
      bumpKey a.length_distribution (lengthRange (m.actual_length.getD 0))
    daily_stats := bumpKey a.daily_stats today
    model_usage := bumpKey a.model_usage (m.model_used.getD "unknown") }

/-- `ContentManager._update_analytics`: read `analytics.json`, apply the five
increments, write it back.  `env.analyticsFault = true` models the analytics
file I/O raising `OSError`. -/
def update_analytics (env : Env) (m : Metadata) (st : StorageState) :
    Except PyErr Unit × StorageState :=
  if env.analyticsFault then (Except.error PyErr.ioError, st)
  else (Except.ok (),
        { st with analytics := updateAnalyticsPure env.today m st.analytics })

/-- `ContentManager.store_content_with_analytics`: `store_content`, then
`_update_analytics` on the (stamped, because the dict was mutated in place)
metadata, then return the hash.  The Python method has no try/except, so an
exception from either step propagates to the caller. -/
def store_content_with_analytics (env : Env) (content : String) (m : Metadata)
    (st : StorageState) : Except PyErr String × StorageState :=
  match store_content env content m st with
  | (Except.error e, st') => (Except.error e, st')
  | (Except.ok hm, st') =>
    match update_analytics env hm.2 st' with
    | (Except.error e, st'') => (Except.error e, st'')
    | (Except.ok _, st'') => (Except.ok hm.1, st'')

/- ### datetime.fromisoformat model -/

/-- Python `s.replace('Z', '+00:00')` as applied to timestamps before
parsing. -/
def replaceZ : List Char → List Char
  | [] => []
  | c :: rest =>
    if c = 'Z' then '+' :: '0' :: '0' :: ':' :: '0' :: '0' :: replaceZ rest
    else c :: replaceZ rest

/-- String-level wrapper for `replaceZ`. -/
def pyReplaceZ (s : String) : String := ⟨replaceZ s.data⟩

/-- Decimal value of two digit characters, `none` if either is not a digit. -/
def digit2 (a b : Char) : Option Nat :=
  if a.isDigit && b.isDigit then some ((a.toNat - 48) * 10 + (b.toNat - 48))
  else none

/-- A UTC-offset suffix `HH:MM` (after the sign) with in-range fields. -/
def offsetOk : List Char → Bool
  | [h1, h2, ':', m1, m2] =>
    match digit2 h1 h2, digit2 m1 m2 with
    | some h, some mi => decide (h < 24) && decide (mi < 60)
    | _, _ => false
  | _ => false

/-- Fractional-second digits, optionally followed by an offset; accumulates
`acc` over `count` digits seen so far and returns microseconds. -/
def parseFrac : List Char → Nat → Nat → Option Nat
  | [], acc, count =>
    if 1 ≤ count ∧ count ≤ 6 then some (acc * 10 ^ (6 - count)) else none
  | c :: rest, acc, count =>
    if c.isDigit then parseFrac rest (acc * 10 + (c.toNat - 48)) (count + 1)
    else if c = '+' ∨ c = '-' then
      if offsetOk rest then
        if 1 ≤ count ∧ count ≤ 6 then some (acc * 10 ^ (6 - count)) else none
      else none
    else none

/-- The tail after `HH:MM:SS`: empty, a fractional part, or an offset;
returns microseconds. -/
def parseTail : List Char → Option Nat
  | [] => some 0
  | '.' :: rest => parseFrac rest 0 0
  | '+' :: rest => if offsetOk rest then some 0 else none
  | '-' :: rest => if offsetOk rest then some 0 else none
  | _ => none

/-- The optional time-of-day part `THH:MM:SS[.ffffff][offset]`; returns
microseconds since midnight. -/
def parseTime : List Char → Option Nat
  | [] => some 0
  | 'T' :: h1 :: h2 :: ':' :: m1 :: m2 :: ':' :: s1 :: s2 :: rest =>
    match digit2 h1 h2, digit2 m1 m2, digit2 s1 s2 with
    | some h, some mi, some s =>
      if h < 24 ∧ mi < 60 ∧ s < 60 then
        (parseTail rest).map fun micro =>
          (h * 3600 + mi * 60 + s) * 1000000 + micro
      else none
    | _, _, _ => none
  | _ => none

/-- Modelled from the spec: Python's `datetime.fromisoformat` (standard
library, not part of this repository's sources), restricted to the shapes this
system reads and writes — `YYYY-MM-DD`, optionally followed by
`THH:MM:SS[.ffffff][±HH:MM]`.  The result is an ordinal strictly monotone in
the parsed timestamp; all timestamps in scope are UTC, so an offset, when
present, is validated but does not shift the ordinal.  Returns `none` exactly
where Python raises `ValueError`. -/
def parseDT (s : String) : Option Nat :=
  match s.data with
  | y1 :: y2 :: y3 :: y4 :: '-' :: mo1 :: mo2 :: '-' :: d1 :: d2 :: rest =>
    match digit2 y1 y2, digit2 y3 y4, digit2 mo1 mo2, digit2 d1 d2 with
    | some yh, some yl, some mo, some d =>
      if 1 ≤ mo ∧ mo ≤ 12 ∧ 1 ≤ d ∧ d ≤ 31 then
        (parseTime rest).map fun t =>
          (((yh * 100 + yl) * 13 + mo) * 32 + d) * 86400000000 + t
      else none
    | _, _, _, _ => none
  | _ => none

/- ### search and cleanup -/

/-- Truthiness of an optional string parameter: Python's `if tone:` is false
for both `None` and the empty string. -/
def truthyStr : Option String → Bool
  | none => false
  | some s => s != ""

/-- Truthiness of an optional integer parameter: Python's `if min_length:` is
false for both `None` and `0`. -/
def truthyInt : Option Int → Bool
  | none => false
  | some n => n != 0

/-- The `for` loop of `ContentManager.search_content`, folded over the records
of `list_contents`: skip on a failed tone / length / date filter, raise
`ValueError` out of the whole call when `datetime.fromisoformat` fails on a
record that reached the date filter, keep the record otherwise. -/
def searchFilter (tone : Option String) (min_length max_length : Option Int)
    (date_from : Option String) : List Metadata → Except PyErr (List Metadata)
  | [] => Except.ok []
  | m :: rest =>
    if truthyStr tone && (m.tone != tone) then
      searchFilter tone min_length max_length date_from rest
    else if truthyInt min_length
        && decide (m.actual_length.getD 0 < min_length.getD 0) then
      searchFilter tone min_length max_length date_from rest
    else if truthyInt max_length
        && decide (m.actual_length.getD 0 > max_length.getD 0) then
      searchFilter tone min_length max_length date_from rest
    else if truthyStr date_from then
      match parseDT (pyReplaceZ (m.created_at.getD "")) with
      | none => Except.error PyErr.valueError
      | some content_date =>
        match parseDT (date_from.getD "") with
        | none => Except.error PyErr.valueError
        | some filter_date =>
          if content_date < filter_date then
            searchFilter tone min_length max_length date_from rest
          else
            (searchFilter tone min_length max_length date_from rest).map
              fun l => m :: l
    else
      (searchFilter tone min_length max_length date_from rest).map
        fun l => m :: l

/-- `ContentManager.search_content`. -/
def search_content (tone : Option String) (min_length max_length : Option Int)
    (date_from : Option String) (st : StorageState) :
    Except PyErr (List Metadata) :=
  searchFilter tone min_length max_length date_from (list_contents st)

/-- The `for` loop of `ContentManager.cleanup_old_content`.  `cutoff` is the
ordinal of `datetime.utcnow() - timedelta(days=days_old)`.  Parsing a record's
`created_at` raises `ValueError` when it is unparsable, and reaching the
marking line raises `AttributeError` because `ContentManager.__init__` never
defines `self.logger`. -/
def cleanupScan (cutoff : Nat) : List Metadata → Except PyErr Unit
  | [] => Except.ok ()
  | m :: rest =>
    match parseDT (pyReplaceZ (m.created_at.getD "")) with
    | none => Except.error PyErr.valueError
    | some content_date =>
      if content_date < cutoff then Except.error PyErr.attributeError
      else cleanupScan cutoff rest

/-- `ContentManager.cleanup_old_content`.  The method only scans: the deletion
itself is absent from the source ("Implementation for actual deletion would go
here"), so the storage state is returned unchanged on every path. -/
def cleanup_old_content (env : Env) (days_old : Int) (st : StorageState) :
    Except PyErr Unit × StorageState :=
  (cleanupScan (env.cutoffOf days_old) (list_contents st), st)

/-- One successful `store_content_with_analytics` call: its wall-clock
readings and its arguments.  Both fault switches are off, so the call
returns the content hash. -/
structure StoreCall : Type where
  nowIso : String
  today : String
  content : String
  metadata : Metadata

/-- The environment of one `StoreCall`. -/
def envOfCall (c : StoreCall) : Env := envOk c.nowIso c.today

/-- A sequence of successful `store_content_with_analytics` calls, applied in
order. -/
def runStores : List StoreCall → StorageState → StorageState
  | [], st => st
  | c :: rest, st =>
    runStores rest
      (store_content_with_analytics (envOfCall c) c.content c.metadata st).2

/- ### Spec-side predicates and auxiliary runs -/

/-- The specification's filter predicate for `search_content` (written from the
claim's words, to be compared with the source-translated `searchFilter`): exact
tone match, inclusive length bounds, creation date on or after `date_from`,
with absent (or Python-falsy) filters as no-ops.  The date conjunct compares
the parsed ordinals and is false on an unparsable date. -/
def searchSpecMatches (tone : Option String) (min_length max_length : Option Int)
    (date_from : Option String) (m : Metadata) : Bool :=
  (!truthyStr tone || (m.tone == tone))
  && (!truthyInt min_length
        || decide (min_length.getD 0 ≤ m.actual_length.getD 0))
  && (!truthyInt max_length
        || decide (m.actual_length.getD 0 ≤ max_length.getD 0))
  && (!truthyStr date_from
        || match parseDT (pyReplaceZ (m.created_at.getD "")),
                 parseDT (date_from.getD "") with
           | some cd, some fd => decide (fd ≤ cd)
           | _, _ => false)

/-- A record's `created_at` parses and is not strictly before the cutoff
(i.e. `cleanup_old_content` passes over it without raising). -/
def notTooOldB (cutoff : Nat) (m : Metadata) : Bool :=
  match parseDT (pyReplaceZ (m.created_at.getD "")) with
  | some k => !decide (k < cutoff)
  | none => false

/-- A sequence of `record` (`_update_analytics`) aggregate updates applied one
after the other — the serialized (mutex-guarded) execution the spec calls for.
Each element carries the call's `today` reading and its metadata. -/
def runRecords : List (String × Metadata) → Analytics → Analytics
  | [], a => a
  | (today, m) :: rest, a => runRecords rest (updateAnalyticsPure today m a)

/- ### Interleaving model of concurrent `record` calls

`_update_analytics` is a read-modify-write of `analytics.json` with no lock:
the read (`json.loads(self.analytics_file.read_text())`) and the write
(`self.analytics_file.write_text(...)`) are the two filesystem-atomic steps,
and steps of different in-flight calls may interleave arbitrarily. -/

/-- One in-flight `record` call: its `today` reading, its metadata argument,
the snapshot of the analytics file it has read (`none` before its read step),
and whether its write step has happened. -/
structure RecThread : Type where
  today : String
  meta : Metadata
  readA : Option Analytics
  done : Bool

/-- The shared analytics file plus the in-flight `record` calls. -/
structure ConcState : Type where
  shared : Analytics
  threads : List RecThread

/-- One atomic step of thread `i`: its file read if it has not read yet,
otherwise its file write of the incremented aggregate computed from the
snapshot it read.  A finished or nonexistent thread leaves the state as is. -/
def stepThread (cs : ConcState) (i : Nat) : ConcState :=
  match cs.threads.get? i with
  | none => cs
  | some th =>
    if th.done then cs
    else
      match th.readA with
      | none =>
        { cs with threads := cs.threads.set i { th with readA := some cs.shared } }
      | some a =>
        { shared := updateAnalyticsPure th.today th.meta a
          threads := cs.threads.set i { th with done := true } }

/-- Run a schedule: a list of thread indices, each performing its next step. -/
def runSched : List Nat → ConcState → ConcState
  | [], cs => cs
  | i :: rest, cs => runSched rest (stepThread cs i)

/-- `n` concurrent `record` calls, none started yet, against a fresh ledger. -/
def concFresh (n : Nat) (today : String) (m : Metadata) : ConcState :=
  ⟨freshAnalytics, List.replicate n ⟨today, m, none, false⟩⟩

/-- The schedule in which all `n` calls perform their file read before any
performs its file write — a legal interleaving of the unlocked code. -/
def readsThenWrites (n : Nat) : List Nat := List.range n ++ List.range n

/- ### Concrete fixtures for counterexamples and witnesses -/

/-- A metadata dict with no keys set. -/
def emptyMeta : Metadata := {}

/-- A typical generation metadata dict. -/
def meta150 : Metadata :=
  { tone := some "casual", actual_length := some 150, model_used := some "m1" }

/-- An environment whose analytics-file I/O raises `OSError` while the content
store is healthy. -/
def envAnalyticsFault : Env :=
  ⟨"2024-01-01T00:00:00", "2024-01-01", fun _ => 0, false, true⟩

/-- An environment whose content-store I/O raises `OSError`. -/
def envStoreFault : Env :=
  ⟨"2024-01-01T00:00:00", "2024-01-01", fun _ => 0, true, false⟩

/-- A storage root holding one metadata record whose `created_at` does not
parse as a timestamp. -/
def badDateState : StorageState :=
  ⟨[], [(["aa", "aa", "a_meta.json"], { created_at := some "garbage" })],
   freshAnalytics⟩

/-- A storage root holding one record with a well-formed `created_at`. -/
def datedRecState : StorageState :=
  ⟨[], [(["aa", "aa", "a_meta.json"],
         { created_at := some "2024-06-01T12:00:00" })],
   freshAnalytics⟩

/-- The spec's search example: records with lengths 50, 150, 250 and tones
casual, professional, casual. -/
def recCasual50 : Metadata :=
  { tone := some "casual", actual_length := some 50 }

/-- Second record of the spec's search example. -/
def recProf150 : Metadata :=
  { tone := some "professional", actual_length := some 150 }

/-- Third record of the spec's search example. -/
def recCasual250 : Metadata :=
  { tone := some "casual", actual_length := some 250 }

/-- A storage root holding the spec's three search-example records. -/
def threeRecState : StorageState :=
  ⟨[],
   [(["aa", "aa", "a_meta.json"], recCasual50),
    (["bb", "bb", "b_meta.json"], recProf150),
    (["cc", "cc", "c_meta.json"], recCasual250)],
   freshAnalytics⟩

/- ### Helper lemmas -/

theorem pyFind?_pySet_self {κ α : Type} [DecidableEq κ] (l : List (κ × α))
    (k : κ) (v : α) : pyFind? (pySet l k v) k = some v := by
  induction l with
  | nil => simp [pySet, pyFind?]
  | cons hd t ih =>
    obtain ⟨k', v'⟩ := hd
    by_cases hk : k' = k
    · simp [pySet, pyFind?, hk]
    · simp [pySet, pyFind?, hk, ih]

theorem pyGet_pySet_self {κ α : Type} [DecidableEq κ] (l : List (κ × α))
    (k : κ) (v d : α) : pyGet (pySet l k v) k d = v := by
  induction l with
  | nil => simp [pySet, pyGet]
  | cons hd t ih =>
    obtain ⟨k', v'⟩ := hd
    by_cases hk : k' = k
    · simp [pySet, pyGet, hk]
    · simp [pySet, pyGet, hk, ih]

theorem pyGet_pySet_ne {κ α : Type} [DecidableEq κ] (l : List (κ × α))
    (k k' : κ) (v d : α) (hne : k' ≠ k) :
    pyGet (pySet l k v) k' d = pyGet l k' d := by
  induction l with
  | nil => simp [pySet, pyGet, Ne.symm hne]
  | cons hd t ih =>
    obtain ⟨k'', v''⟩ := hd
    by_cases hk : k'' = k
    · subst hk
      simp [pySet, pyGet, Ne.symm hne]
    · simp [pySet, pyGet, hk, ih]

theorem sumValues_bumpKey (l : List (String × Int)) (k : String) :
    sumValues (bumpKey l k) = sumValues l + 1 := by
  induction l with
  | nil => simp [bumpKey, pySet, pyGet, sumValues]
  | cons hd t ih =>
    obtain ⟨k', v'⟩ := hd
    by_cases hk : k' = k
    · subst hk
      simp [bumpKey, pySet, pyGet, sumValues]
      omega
    · have hstep : bumpKey ((k', v') :: t) k = (k', v') :: bumpKey t k := by
        simp [bumpKey, pySet, pyGet, hk]
      rw [hstep]
      simp [sumValues, ih]
      omega

theorem pyGet_bumpKey_self (l : List (String × Int)) (k : String) :
    pyGet (bumpKey l k) k 0 = pyGet l k 0 + 1 := by
  simp [bumpKey, pyGet_pySet_self]

theorem pyGet_bumpKey_ne (l : List (String × Int)) (k k' : String)
    (hne : k' ≠ k) : pyGet (bumpKey l k) k' 0 = pyGet l k' 0 := by
  simp [bumpKey, pyGet_pySet_ne _ _ _ _ _ hne]

/-- The analytics aggregate after one fault-free
`store_content_with_analytics` call is exactly one `_update_analytics` step on
the previous aggregate (stamping `created_at` / `content_hash` does not touch
the fields the analytics read). -/
theorem scwa_analytics (c : StoreCall) (st : StorageState) :
    (store_content_with_analytics (envOfCall c) c.content c.metadata st).2.analytics
      = updateAnalyticsPure c.today c.metadata st.analytics := rfl

/-- A fault-free `store_content_with_analytics` call returns the content
hash. -/
theorem scwa_ok (c : StoreCall) (st : StorageState) :
    (store_content_with_analytics (envOfCall c) c.content c.metadata st).1
      = Except.ok (md5Hex c.content) := rfl

theorem runStores_equations (xs : List StoreCall) (st : StorageState) :
    (runStores xs st).analytics.total_content_generated
        = st.analytics.total_content_generated + xs.length
    ∧ sumValues (runStores xs st).analytics.tone_distribution
        = sumValues st.analytics.tone_distribution + xs.length
    ∧ sumValues (runStores xs st).analytics.length_distribution
        = sumValues st.analytics.length_distribution + xs.length
    ∧ sumValues (runStores xs st).analytics.daily_stats
        = sumValues st.analytics.daily_stats + xs.length
    ∧ sumValues (runStores xs st).analytics.model_usage
        = sumValues st.analytics.model_usage + xs.length := by
  induction xs generalizing st with
  | nil => simp [runStores]
  | cons ch t ih =>
    have h := ih (store_content_with_analytics (envOfCall ch) ch.content ch.metadata st).2
    rw [scwa_analytics ch st] at h
    obtain ⟨h1, h2, h3, h4, h5⟩ := h
    simp only [runStores, List.length_cons]
    refine ⟨?_, ?_, ?_, ?_, ?_⟩
    · rw [h1]; simp [updateAnalyticsPure]; omega
    · rw [h2]; simp [updateAnalyticsPure, sumValues_bumpKey]; omega
    · rw [h3]; simp [updateAnalyticsPure, sumValues_bumpKey]; omega
    · rw [h4]; simp [updateAnalyticsPure, sumValues_bumpKey]; omega
    · rw [h5]; simp [updateAnalyticsPure, sumValues_bumpKey]; omega

theorem runRecords_total (ms : List (String × Metadata)) (a : Analytics) :
    (runRecords ms a).total_content_generated
      = a.total_content_generated + ms.length := by
  induction ms generalizing a with
  | nil => simp [runRecords]
  | cons p rest ih =>
    obtain ⟨today, m⟩ := p
    simp only [runRecords, List.length_cons]
    rw [ih]
    simp [updateAnalyticsPure]
    omega

set_option maxRecDepth 100000

theorem take_two_of_take_four (l : List Char) : (l.take 4).take 2 = l.take 2 := by
  rw [List.take_take]
  norm_num

theorem stringMk_inj (l1 l2 : List Char) : (⟨l1⟩ : String) = ⟨l2⟩ ↔ l1 = l2 :=
  ⟨fun h => congrArg String.data h, fun h => congrArg String.mk h⟩

theorem take_four_split (l1 l2 : List Char)
    (h2 : l1.take 2 = l2.take 2)
    (h4 : (l1.take 4).drop 2 = (l2.take 4).drop 2) : l1.take 4 = l2.take 4 := by
  rw [← List.take_append_drop 2 (l1.take 4), ← List.take_append_drop 2 (l2.take 4),
    take_two_of_take_four, take_two_of_take_four, h2, h4]

/- ### Claim theorems -/

/-- C1: after any sequence of N successful `store_content_with_analytics`
calls starting from a fresh analytics record, the sum of the values of
`tone_distribution`, of `model_usage`, of `daily_stats`, and of
`length_distribution` each equal `total_content_generated`, which equals N. -/
theorem analytics_conservation (xs : List StoreCall) :
    (runStores xs freshState).analytics.total_content_generated = xs.length
    ∧ sumValues (runStores xs freshState).analytics.tone_distribution = xs.length
    ∧ sumValues (runStores xs freshState).analytics.model_usage = xs.length
    ∧ sumValues (runStores xs freshState).analytics.daily_stats = xs.length
    ∧ sumValues (runStores xs freshState).analytics.length_distribution
        = xs.length := by
  obtain ⟨h1, h2, h3, h4, h5⟩ := runStores_equations xs freshState
  refine ⟨?_, ?_, ?_, ?_, ?_⟩
  · rw [h1]; simp [freshState, freshAnalytics]
  · rw [h2]; simp [freshState, freshAnalytics, sumValues]
  · rw [h5]; simp [freshState, freshAnalytics, sumValues]
  · rw [h4]; simp [freshState, freshAnalytics, sumValues]
  · rw [h3]; simp [freshState, freshAnalytics, sumValues]

/-- C2: `put(c, m1)` then `put(c, m2)` returns the same `content_hash` both
times — `md5Hex c`, a pure function of the content alone — and a subsequent
`get` of that hash returns the content `c` with the metadata of the most
recent `put` (stamped, last write wins). -/
theorem put_idempotent_and_last_write_wins (c : String) (m1 m2 : Metadata)
    (n1 t1 n2 t2 : String) (st : StorageState) :
    (store_content (envOk n1 t1) c m1 st).1
        = Except.ok (md5Hex c, stampMeta m1 n1 (md5Hex c))
    ∧ (store_content (envOk n2 t2) c m2
          (store_content (envOk n1 t1) c m1 st).2).1
        = Except.ok (md5Hex c, stampMeta m2 n2 (md5Hex c))
    ∧ retrieve_content (md5Hex c)
          (store_content (envOk n2 t2) c m2
            (store_content (envOk n1 t1) c m1 st).2).2
        = some (c, stampMeta m2 n2 (md5Hex c)) := by
  refine ⟨rfl, rfl, ?_⟩
  simp [store_content, retrieve_content, envOk, pyFind?_pySet_self]

/-- C7: `get` of a hash whose content artifact or metadata artifact is missing
(in particular of any hash never stored) returns the not-found signal `none`,
never a partial result — and, being `Option`-valued, raises nothing. -/
theorem retrieve_not_found (content_hash : String) (st : StorageState)
    (h : pyFind? st.files_txt (contentPath content_hash) = none
       ∨ pyFind? st.files_meta (metaPath content_hash) = none) :
    retrieve_content content_hash st = none := by
  unfold retrieve_content
  rcases h with h | h
  · rw [h]
  · rw [h]
    rcases pyFind? st.files_txt (contentPath content_hash) with _ | c <;> rfl

/-- Witness for C7: the well-formed but unused hash `"0" * 32` is not found in
a fresh store. -/
theorem retrieve_not_found_witness :
    retrieve_content "00000000000000000000000000000000" freshState = none :=
  retrieve_not_found "00000000000000000000000000000000" freshState (Or.inl rfl)

/-- C8: the storage location is exactly two directory levels below the root,
and two hashes share that location exactly when they share their first four
characters (`hash[:2]` and `hash[2:4]`). -/
theorem sharding_two_level (h1 h2 : String) :
    (get_storage_path h1).length = 2
    ∧ (get_storage_path h1 = get_storage_path h2
        ↔ pySlice h1 0 4 = pySlice h2 0 4) := by
  refine ⟨rfl, ?_⟩
  simp only [get_storage_path, pySlice, List.cons.injEq, and_true,
    stringMk_inj, List.drop_zero]
  constructor
  · rintro ⟨ha, hb⟩
    exact take_four_split h1.data h2.data ha hb
  · intro h
    refine ⟨?_, ?_⟩
    · rw [← take_two_of_take_four h1.data, ← take_two_of_take_four h2.data, h]
    · rw [h]

/-- C9 counterexample: `_update_analytics` takes no lock between its file read
and its file write, so the interleaving in which all 100 concurrent `record`
calls read the fresh ledger before any writes ends with
`total_content_generated = 1`, not 100 — the claimed serialization does not
hold of the code. -/
theorem concurrent_record_lost_update_cex :
    (runSched (readsThenWrites 100)
        (concFresh 100 "2024-01-01" emptyMeta)).shared.total_content_generated
      = 1
    ∧ (runSched (readsThenWrites 100)
        (concFresh 100 "2024-01-01" emptyMeta)).shared.total_content_generated
      ≠ 100 := by
  constructor
  · decide
  · decide

/-- C9 amended: the code does not serialize concurrent `record` calls and can
lose updates under interleaving; when the calls are serialized — executed one
after the other, as the spec demands — N `record` calls on a fresh ledger
yield `total_content_generated = N` (in particular 100 calls yield 100). -/
theorem record_serialized_no_lost_updates (ms : List (String × Metadata)) :
    (runRecords ms freshAnalytics).total_content_generated = ms.length := by
  rw [runRecords_total]
  simp [freshAnalytics]

/-- C10: `store_content` mutates the caller's metadata mapping in place: after
the call the caller's mapping has `created_at` set to the call's timestamp and
`content_hash` set to the returned hash (overwritten if present), every other
key unchanged — and the persisted metadata artifact is that same stamped
mapping, not a private copy. -/
theorem store_content_stamps_metadata (nowIso today c : String) (m : Metadata)
    (st : StorageState) :
    (store_content (envOk nowIso today) c m st).1
      = Except.ok (md5Hex c,
          { m with created_at := some nowIso, content_hash := some (md5Hex c) })
    ∧ pyFind? (store_content (envOk nowIso today) c m st).2.files_meta
          (metaPath (md5Hex c))
      = some { m with created_at := some nowIso, content_hash := some (md5Hex c) } := by
  refine ⟨rfl, ?_⟩
  simp [store_content, envOk, stampMeta, pyFind?_pySet_self]

/-- C3 counterexample: with the content store healthy and the analytics file
raising, `store_content_with_analytics` does NOT return the content hash: the
Python body has no try/except, so the analytics failure propagates and the
claim's "still returns the content_hash, swallowing analytics failures"
fails. -/
theorem store_with_analytics_swallow_cex :
    (store_content_with_analytics envAnalyticsFault "x" emptyMeta freshState).1
      = Except.error PyErr.ioError := rfl

/-- C3 amended: any content-store failure propagates to the caller and no hash
is returned (the state untouched); an analytics failure after a successful put
ALSO propagates — nothing is swallowed or logged — still returning no hash,
although the content and metadata artifacts are by then durably stored. -/
theorem store_with_analytics_error_propagation (env : Env) (c : String)
    (m : Metadata) (st : StorageState) :
    (env.storeFault = true →
      (store_content_with_analytics env c m st).1 = Except.error PyErr.ioError
      ∧ (store_content_with_analytics env c m st).2 = st)
    ∧ (env.storeFault = false → env.analyticsFault = true →
      (store_content_with_analytics env c m st).1 = Except.error PyErr.ioError
      ∧ pyFind? (store_content_with_analytics env c m st).2.files_txt
          (contentPath (md5Hex c)) = some c
      ∧ pyFind? (store_content_with_analytics env c m st).2.files_meta
          (metaPath (md5Hex c)) = some (stampMeta m env.nowIso (md5Hex c))) := by
  constructor
  · intro hs
    simp [store_content_with_analytics, store_content, hs]
  · intro hs ha
    simp [store_content_with_analytics, store_content, update_analytics, hs, ha,
      pyFind?_pySet_self]

/-- Witness for C3 amended, at a store-faulting environment and at an
analytics-faulting environment. -/
theorem store_with_analytics_error_propagation_witness :
    ((store_content_with_analytics envStoreFault "x" emptyMeta freshState).1
        = Except.error PyErr.ioError
      ∧ (store_content_with_analytics envStoreFault "x" emptyMeta freshState).2
        = freshState)
    ∧ ((store_content_with_analytics envAnalyticsFault "x" emptyMeta
          freshState).1 = Except.error PyErr.ioError
      ∧ pyFind? (store_content_with_analytics envAnalyticsFault "x" emptyMeta
          freshState).2.files_txt (contentPath (md5Hex "x")) = some "x"
      ∧ pyFind? (store_content_with_analytics envAnalyticsFault "x" emptyMeta
          freshState).2.files_meta (metaPath (md5Hex "x"))
        = some (stampMeta emptyMeta envAnalyticsFault.nowIso (md5Hex "x"))) :=
  ⟨(store_with_analytics_error_propagation envStoreFault "x" emptyMeta
      freshState).1 rfl,
   (store_with_analytics_error_propagation envAnalyticsFault "x" emptyMeta
      freshState).2 rfl rfl⟩

/-- C4 counterexample: `record` on a metadata dict with no `actual_length`
buckets the length under `"0-99"` (the code defaults a missing length to 0),
not under `"unknown"` as the claim states — while the update itself happens
(the total rises to 1). -/
theorem record_missing_length_bucket_cex :
    pyGet (update_analytics (envOk "2024-01-01T00:00:00" "2024-01-01")
        emptyMeta freshState).2.analytics.length_distribution "unknown" 0 = 0
    ∧ pyGet (update_analytics (envOk "2024-01-01T00:00:00" "2024-01-01")
        emptyMeta freshState).2.analytics.length_distribution "0-99" 0 = 1
    ∧ (update_analytics (envOk "2024-01-01T00:00:00" "2024-01-01")
        emptyMeta freshState).2.analytics.total_content_generated = 1 := by
  refine ⟨?_, ?_, ?_⟩ <;> decide

/-- C4 amended: one `record` call increments `total_content_generated` by
exactly 1 and exactly one key of each of the four distributions, each key
defaulting to 0 before increment: the tone key (`"unknown"` when missing), the
length bucket label of `actual_length` — which defaults to 0, hence bucket
`"0-99"`, when missing — the current UTC date, and the model key (`"unknown"`
when missing). -/
theorem record_postcondition (nowIso today : String) (m : Metadata)
    (st : StorageState) :
    (update_analytics (envOk nowIso today) m
          st).2.analytics.total_content_generated
      = st.analytics.total_content_generated + 1
    ∧ (pyGet (update_analytics (envOk nowIso today) m
            st).2.analytics.tone_distribution (m.tone.getD "unknown") 0
        = pyGet st.analytics.tone_distribution (m.tone.getD "unknown") 0 + 1
      ∧ ∀ k, k ≠ m.tone.getD "unknown" →
          pyGet (update_analytics (envOk nowIso today) m
              st).2.analytics.tone_distribution k 0
            = pyGet st.analytics.tone_distribution k 0)
    ∧ (pyGet (update_analytics (envOk nowIso today) m
            st).2.analytics.length_distribution
          (lengthRange (m.actual_length.getD 0)) 0
        = pyGet st.analytics.length_distribution
            (lengthRange (m.actual_length.getD 0)) 0 + 1
      ∧ ∀ k, k ≠ lengthRange (m.actual_length.getD 0) →
          pyGet (update_analytics (envOk nowIso today) m
              st).2.analytics.length_distribution k 0
            = pyGet st.analytics.length_distribution k 0)
    ∧ (pyGet (update_analytics (envOk nowIso today) m
            st).2.analytics.daily_stats today 0
        = pyGet st.analytics.daily_stats today 0 + 1
      ∧ ∀ k, k ≠ today →
          pyGet (update_analytics (envOk nowIso today) m
              st).2.analytics.daily_stats k 0
            = pyGet st.analytics.daily_stats k 0)
    ∧ (pyGet (update_analytics (envOk nowIso today) m
            st).2.analytics.model_usage (m.model_used.getD "unknown") 0
        = pyGet st.analytics.model_usage (m.model_used.getD "unknown") 0 + 1
      ∧ ∀ k, k ≠ m.model_used.getD "unknown" →
          pyGet (update_analytics (envOk nowIso today) m
              st).2.analytics.model_usage k 0
            = pyGet st.analytics.model_usage k 0) := by
  refine ⟨rfl, ⟨?_, ?_⟩, ⟨?_, ?_⟩, ⟨?_, ?_⟩, ⟨?_, ?_⟩⟩
  · simp [update_analytics, envOk, updateAnalyticsPure, pyGet_bumpKey_self]
  · intro k hk
    simp only [update_analytics, envOk, updateAnalyticsPure]
    exact pyGet_bumpKey_ne _ _ _ hk
  · simp [update_analytics, envOk, updateAnalyticsPure, pyGet_bumpKey_self]
  · intro k hk
    simp only [update_analytics, envOk, updateAnalyticsPure]
    exact pyGet_bumpKey_ne _ _ _ hk
  · simp [update_analytics, envOk, updateAnalyticsPure, pyGet_bumpKey_self]
  · intro k hk
    simp only [update_analytics, envOk, updateAnalyticsPure]
    exact pyGet_bumpKey_ne _ _ _ hk
  · simp [update_analytics, envOk, updateAnalyticsPure, pyGet_bumpKey_self]
  · intro k hk
    simp only [update_analytics, envOk, updateAnalyticsPure]
    exact pyGet_bumpKey_ne _ _ _ hk

/-- Witness for C4 amended at a typical metadata dict, with key `"other"` as
the untouched key. -/
theorem record_postcondition_witness :
    (update_analytics (envOk "2024-05-05T00:00:00" "2024-05-05") meta150
          freshState).2.analytics.total_content_generated
      = freshState.analytics.total_content_generated + 1
    ∧ pyGet (update_analytics (envOk "2024-05-05T00:00:00" "2024-05-05")
          meta150 freshState).2.analytics.tone_distribution "other" 0
      = pyGet freshState.analytics.tone_distribution "other" 0 :=
  ⟨(record_postcondition "2024-05-05T00:00:00" "2024-05-05" meta150
      freshState).1,
   (record_postcondition "2024-05-05T00:00:00" "2024-05-05" meta150
      freshState).2.1.2 "other" (by decide)⟩

/-- The claim-style matcher equals the complement of the code's skip
conditions: `¬(length < min)` is `min ≤ length`, `¬(length > max)` is
`length ≤ max`, and `¬(content_date < filter_date)` is
`filter_date ≤ content_date`. -/
theorem searchSpecMatches_eq (tone : Option String) (mn mx : Option Int)
    (df : Option String) (m : Metadata) :
    searchSpecMatches tone mn mx df m
      = (!(truthyStr tone && (m.tone != tone))
        && !(truthyInt mn && decide (m.actual_length.getD 0 < mn.getD 0))
        && !(truthyInt mx && decide (m.actual_length.getD 0 > mx.getD 0))
        && (!truthyStr df
            || match parseDT (pyReplaceZ (m.created_at.getD "")),
                     parseDT (df.getD "") with
               | some cd, some fd => !decide (cd < fd)
               | _, _ => false)) := by
  unfold searchSpecMatches
  rcases hpc : parseDT (pyReplaceZ (m.created_at.getD "")) with _ | cd <;>
    rcases hpf : parseDT (df.getD "") with _ | fd <;>
      simp [Bool.not_and, bne, ← decide_not, not_lt]

/-- One-list version of the C5 characterization, by induction over the
records. -/
theorem searchFilter_characterization (tone : Option String)
    (min_length max_length : Option Int) (date_from : Option String)
    (l : List Metadata)
    (hdf : truthyStr date_from = true →
        (parseDT (date_from.getD "")).isSome = true)
    (hrec : truthyStr date_from = true → ∀ m ∈ l,
        (parseDT (pyReplaceZ (m.created_at.getD ""))).isSome = true) :
    searchFilter tone min_length max_length date_from l
      = Except.ok (l.filter
          (searchSpecMatches tone min_length max_length date_from)) := by
  induction l with
  | nil => rfl
  | cons m rest ih =>
    have ih' := ih (fun h m' hm' => hrec h m' (List.mem_cons_of_mem _ hm'))
    simp only [searchFilter, List.filter_cons, searchSpecMatches_eq]
    by_cases hc1 : (truthyStr tone && (m.tone != tone)) = true
    · simp [hc1, ih']
    · rw [Bool.not_eq_true] at hc1
      by_cases hc2 : (truthyInt min_length
          && decide (m.actual_length.getD 0 < min_length.getD 0)) = true
      · simp [hc1, hc2, ih']
      · rw [Bool.not_eq_true] at hc2
        by_cases hc3 : (truthyInt max_length
            && decide (m.actual_length.getD 0 > max_length.getD 0)) = true
        · simp [hc1, hc2, hc3, ih']
        · rw [Bool.not_eq_true] at hc3
          by_cases hdf' : truthyStr date_from = true
          · obtain ⟨cd, hcd⟩ := Option.isSome_iff_exists.mp
              (hrec hdf' m (List.mem_cons_self m rest))
            obtain ⟨fd, hfd⟩ := Option.isSome_iff_exists.mp (hdf hdf')
            by_cases hlt : cd < fd
            · simp [hc1, hc2, hc3, hdf', hcd, hfd, hlt, ih']
            · simp [hc1, hc2, hc3, hdf', hcd, hfd, hlt, ih', Except.map]
          · rw [Bool.not_eq_true] at hdf'
            simp [hc1, hc2, hc3, hdf', ih', Except.map]

/-- C5 counterexample: a date-filtered search over a root holding a record
with unparsable `created_at` raises `ValueError` — the record is not
"excluded" as the claim states; the whole search fails. -/
theorem search_unparsable_date_cex :
    search_content none none none (some "2024-01-01") badDateState
      = Except.error PyErr.valueError := by
  rfl

/-- C5 amended: `search_content` returns exactly the records matching the
conjunction of exact tone match, inclusive length bounds, and `created_at` on
or after `date_from`, where a filter that is absent — or Python-falsy: an
empty tone or zero bound — is a no-op, PROVIDED that when the date filter is
active it parses and every record has parsable `created_at`; a record with
unparsable `created_at` makes a date-filtered search raise `ValueError`
rather than being excluded. -/
theorem search_filter_characterization (tone : Option String)
    (min_length max_length : Option Int) (date_from : Option String)
    (st : StorageState)
    (hdf : truthyStr date_from = true →
        (parseDT (date_from.getD "")).isSome = true)
    (hrec : truthyStr date_from = true → ∀ m ∈ list_contents st,
        (parseDT (pyReplaceZ (m.created_at.getD ""))).isSome = true) :
    search_content tone min_length max_length date_from st
      = Except.ok ((list_contents st).filter
          (searchSpecMatches tone min_length max_length date_from)) :=
  searchFilter_characterization tone min_length max_length date_from
    (list_contents st) hdf hrec

/-- Witness for C5 amended: the spec's example — records with lengths
50/150/250 and tones casual/professional/casual; `search(tone="casual")`
returns exactly the two casual records, and
`search(min_length=100, max_length=200)` returns exactly the 150-length
record. -/
theorem search_filter_characterization_witness :
    search_content (some "casual") none none none threeRecState
      = Except.ok [recCasual50, recCasual250]
    ∧ search_content none (some 100) (some 200) none threeRecState
      = Except.ok [recProf150] := by
  constructor
  · rw [search_filter_characterization (some "casual") none none none
        threeRecState (fun h => absurd h (by decide))
        (fun h => absurd h (by decide))]
    rfl
  · rw [search_filter_characterization none (some 100) (some 200) none
        threeRecState (fun h => absurd h (by decide))
        (fun h => absurd h (by decide))]
    rfl

/-- The success condition of one `cleanup_old_content` scan, record by
record. -/
theorem cleanupScan_ok_iff (cutoff : Nat) (l : List Metadata) :
    cleanupScan cutoff l = Except.ok ()
      ↔ ∀ m ∈ l, notTooOldB cutoff m = true := by
  induction l with
  | nil => simp [cleanupScan]
  | cons m rest ih =>
    simp only [cleanupScan, List.mem_cons]
    cases hp : parseDT (pyReplaceZ (m.created_at.getD "")) with
    | none => simp [notTooOldB, hp]
    | some k =>
      by_cases hk : k < cutoff
      · simp [notTooOldB, hp, hk]
      · simp [notTooOldB, hp, hk, ih]

/-- C6 counterexample: on a root holding one record whose `created_at` is
unparsable, `cleanup_old_content` raises `ValueError` instead of skipping the
record — the claim's "completes without error, treating such records as not
old enough to judge" fails (no record is removed, but the run errors). -/
theorem cleanup_unparsable_cex :
    (cleanup_old_content (envOk "2024-01-01T00:00:00" "2024-01-01") 30
        badDateState).1 = Except.error PyErr.valueError := by
  rfl

/-- C6 amended: `cleanup_old_content` removes nothing at all (the storage
state is returned unchanged — deletion is unimplemented) and re-running it on
its own output is the same deterministic scan; but it does not skip problem
records: it completes without error exactly when every record's `created_at`
parses and none is strictly older than the cutoff — an unparsable `created_at`
raises `ValueError` instead of being skipped, and reaching an older-than-cutoff
record raises `AttributeError` (the manager defines no `logger`). -/
theorem cleanup_no_removal (env : Env) (days_old : Int) (st : StorageState) :
    (cleanup_old_content env days_old st).2 = st
    ∧ cleanup_old_content env days_old (cleanup_old_content env days_old st).2
        = cleanup_old_content env days_old st
    ∧ ((cleanup_old_content env days_old st).1 = Except.ok ()
        ↔ ∀ m ∈ list_contents st,
            notTooOldB (env.cutoffOf days_old) m = true) :=
  ⟨rfl, rfl, cleanupScan_ok_iff _ _⟩

/-- Witness for C6 amended on a root with one well-dated record and a cutoff
of zero: the state is unchanged and the scan completes without error. -/
theorem cleanup_no_removal_witness :
    (cleanup_old_content (envOk "2024-06-02T00:00:00" "2024-06-02") 30
        datedRecState).2 = datedRecState
    ∧ (cleanup_old_content (envOk "2024-06-02T00:00:00" "2024-06-02") 30
        datedRecState).1 = Except.ok () :=
  ⟨(cleanup_no_removal (envOk "2024-06-02T00:00:00" "2024-06-02") 30
      datedRecState).1,
   (cleanup_no_removal (envOk "2024-06-02T00:00:00" "2024-06-02") 30
      datedRecState).2.2.mpr (by decide)⟩
